import Mathlib

/-!
Shallow embedding of the BBRLDB live-tournament front-end logic.

Two source files are modelled:

* `src/static/challonge_live.js` — the Status Poller (fetch/render/reschedule
  loop), the Renderer (DOM projection of a tournament payload onto four page
  regions), and the single-pending-timeout scheduling state.
* `src/unnamed/part_000` — the Bracket Change Watcher (startup configuration
  guard, poll handler comparing a stringified `updated_at` marker against a
  stored baseline, full-page reload on divergence).

Modelling conventions:

* JavaScript values that may be `null`/`undefined` become `Option` values;
  the JS `||`-with-default idiom on strings becomes `jsOr` (the empty string
  is falsy), and JS truthiness of an optional string becomes `jsTruthy`.
* DOM element trees become the inductive `Node`; a region's *element*
  children (the `section.children` HTMLCollection the code iterates over)
  become a `List Node`.  Text nodes of the static scaffold are untouched by
  both `removeContent` and the appends, so they are not part of region state.
* The status section's named sub-elements are modelled as always present
  (the page scaffold provides them); in the code an absent sub-element makes
  the corresponding assignment a no-op, which does not affect any property
  proved here.
* Asynchronous control flow becomes event traces: one completed fetch
  attempt (a "cycle") is a `FetchResult`, and the handler's observable
  actions (render calls, console logging, reschedules) are an ordered
  `List Event`.
-/

namespace ChallongeLive

/-- JS `x || d` for an optional string `x`: `null`/`undefined` and the empty
string are falsy, so they yield the default `d`. -/
def jsOr (o : Option String) (d : String) : String :=
  match o with
  | some s => if s = "" then d else s
  | none => d

/-- JS truthiness of an optional string: `null`/`undefined` and `""` are
falsy. -/
def jsTruthy (o : Option String) : Bool :=
  match o with
  | some s => s != ""
  | none => false

/-- A DOM node: either a text node or an element with a tag, a class list,
dataset entries (dataset values are already stringified, as DOM assignment
stringifies them) and child nodes.  `textContent = s` on a leaf element is
modelled as the single child `Node.text s`. -/
inductive Node where
  | text (s : String)
  | elem (tag : String) (classes : List String) (data : List (String × String))
      (children : List Node)

/-- A match object from the payload (`Match` entity of the data model).
Every field may be absent.  `id` is an opaque identifier, kept in its
stringified form (DOM dataset assignment stringifies it anyway).  A `null`
entry in a match list behaves exactly like the all-absent match under the
`match?.field` optional chaining, so `Match` with all fields `none` covers
it. -/
structure Match where
  id : Option String
  round_label : Option String
  player1_name : Option String
  player2_name : Option String
  winner_slot : Option String
  score_text : Option String
  status_text : Option String
deriving DecidableEq

/-- A round object: `{ round, round_label, matches }`. -/
structure Round where
  round : Option Int
  round_label : Option String
  matches' : Option (List Match)
deriving DecidableEq

/-- The tournament object of a status payload. -/
structure Tournament where
  name : Option String
  state : Option String
  total_participants : Option Int
  total_matches : Option Int
  url : Option String
  current_match : Option Match
  upcoming_matches : Option (List Match)
  recent_matches : Option (List Match)
  rounds : Option (List Round)
deriving DecidableEq

/-- A `TournamentStatusPayload`.  An absent field is `none`; the JS object
`{}` is the payload with every field `none`. -/
structure Payload where
  configured : Option Bool
  error : Option String
  fetched_at : Option String
  tournament : Option Tournament
deriving DecidableEq

/-- The payload `{}` (all fields absent). -/
def emptyPayload : Payload :=
  { configured := none, error := none, fetched_at := none, tournament := none }

/-- `removeContent(section)` (challonge_live.js lines 12–17): while the
section has more than one element child, remove the last one.  Modelled on
the list of element children. -/
def removeContent (children : List Node) : List Node :=
  if 1 < children.length then removeContent children.dropLast else children
termination_by children.length
decreasing_by
  simp only [List.length_dropLast]
  omega

/-- The `match?.id` dataset guard of `createMatchRow` (lines 22–24): the
`data-match-id` entry is present exactly when `id` is non-null. -/
def matchDataset (m : Match) : List (String × String) :=
  match m.id with
  | some i => [("matchId", i)]
  | none => []

/-- The `match-round` div of a match row (line 26–29). -/
def matchRoundDiv (m : Match) : Node :=
  .elem "div" ["match-round"] [] [.text (jsOr m.round_label "Round")]

/-- A `match-player` span (lines 34–50): placeholder `TBD` for an absent
name, `winner` class added when `winner_slot` strictly equals the slot
sentinel. -/
def playerSpan (name : Option String) (slot : String) (winner : Option String) : Node :=
  .elem "span" ("match-player" :: if winner = some slot then ["winner"] else [])
    [] [.text (jsOr name "TBD")]

/-- The `match-vs` separator span (lines 41–43). -/
def vsSpan : Node := .elem "span" ["match-vs"] [] [.text "vs"]

/-- The `match-players` div of a match row (lines 31–55). -/
def matchPlayersDiv (m : Match) : Node :=
  .elem "div" ["match-players"] []
    [playerSpan m.player1_name "player1" m.winner_slot,
     vsSpan,
     playerSpan m.player2_name "player2" m.winner_slot]

/-- The optional `match-score` span (lines 59–64): appended only when
`score_text` is truthy. -/
def scoreSpanList (score_text : Option String) : List Node :=
  match score_text with
  | some s => if s = "" then [] else [.elem "span" ["match-score"] [] [.text s]]
  | none => []

/-- The `match-state` span (lines 65–68): `status_text || ''`, so an absent
status renders an element whose text is the empty string. -/
def stateSpan (m : Match) : Node :=
  .elem "span" ["match-state"] [] [.text (jsOr m.status_text "")]

/-- The `match-meta` div of a match row (lines 57–69). -/
def matchMetaDiv (m : Match) : Node :=
  .elem "div" ["match-meta"] [] (scoreSpanList m.score_text ++ [stateSpan m])

/-- `createMatchRow(match)` (lines 19–71). -/
def createMatchRow (m : Match) : Node :=
  .elem "li" ["match-row"] (matchDataset m)
    [matchRoundDiv m, matchPlayersDiv m, matchMetaDiv m]

/-- The `empty-copy` placeholder paragraph used by the list renderers. -/
def emptyCopy (text : String) : Node :=
  .elem "p" ["empty-copy"] [] [.text text]

/-- `renderMatchList(section, matches, emptyText)` (lines 73–89), acting on
the section's element children. -/
def renderMatchList (sectionChildren : List Node) (matchList : List Match)
    (emptyText : String) : List Node :=
  let cleared := removeContent sectionChildren
  if matchList.isEmpty then
    cleared ++ [emptyCopy emptyText]
  else
    cleared ++ [.elem "ul" ["match-list"] [] (matchList.map createMatchRow)]

/-- A `current-player` div of the current-match card (lines 114–130). -/
def currentPlayerDiv (name : Option String) (slot : String)
    (winner : Option String) : Node :=
  .elem "div" ("current-player" :: if winner = some slot then ["winner"] else [])
    [] [.text (jsOr name "TBD")]

/-- The current-match card (lines 101–150). -/
def currentMatchCard (m : Match) : Node :=
  .elem "div" ["current-match-card"]
    (match m.id with
     | some i => [("currentMatchId", i)]
     | none => [])
    [.elem "div" ["match-round"] [] [.text (jsOr m.round_label "Round")],
     .elem "div" ["current-versus"] []
       [currentPlayerDiv m.player1_name "player1" m.winner_slot,
        .elem "div" ["current-vs"] [] [.text "vs"],
        currentPlayerDiv m.player2_name "player2" m.winner_slot],
     .elem "div" ["current-meta"] [] (scoreSpanList m.score_text ++ [stateSpan m])]

/-- `renderCurrent(section, match)` (lines 91–151). -/
def renderCurrent (sectionChildren : List Node) (m : Option Match) : List Node :=
  let cleared := removeContent sectionChildren
  match m with
  | none => cleared ++ [emptyCopy "No live match right now."]
  | some mt => cleared ++ [currentMatchCard mt]

/-- One round card of the rounds grid (lines 166–182): dataset `round` entry
when the round number is non-null, title `round_label || Round N` where the
template fallback uses `round.round ?? ''`. -/
def roundCard (r : Round) : Node :=
  .elem "div" ["round-card"]
    (match r.round with
     | some n => [("round", toString n)]
     | none => [])
    [.elem "h4" ["round-title"] []
       [.text (jsOr r.round_label
         ("Round " ++ (match r.round with | some n => toString n | none => "")))],
     .elem "ul" ["match-list", "compact"] []
       ((r.matches'.getD []).map createMatchRow)]

/-- `renderRounds(section, rounds)` (lines 153–185). -/
def renderRounds (sectionChildren : List Node) (rounds : List Round) : List Node :=
  let cleared := removeContent sectionChildren
  if rounds.isEmpty then
    cleared ++ [emptyCopy "Bracket data will appear once matches are seeded."]
  else
    cleared ++ [.elem "div" ["rounds-grid"] [] (rounds.map roundCard)]

/-- The state-string lookup table `stateStrings` (lines 5–10). -/
def stateStrings (s : String) : Option String :=
  if s = "complete" then some "Final"
  else if s = "underway" then some "In Progress"
  else if s = "pending" then some "Upcoming"
  else if s = "open" then some "Upcoming"
  else none

/-- The text contents and visibility flags of the status section's named
sub-elements after an `updateStatus` pass. -/
structure StatusView where
  nameText : String
  stateText : String
  participantsText : String
  matchesText : String
  updatedText : String
  linkHref : String
  linkHidden : Bool
  errorText : String
  errorHidden : Bool
deriving DecidableEq

/-- `updateStatus(root, payload)` (lines 187–249): every sub-element's
content is a function of the payload alone (`payload` itself may be `null`,
hence `Option Payload`).  The error banner implements
`const configured = payload?.configured !== false` followed by the
unconfigured / error / hidden cascade of lines 236–247. -/
def updateStatus (p : Option Payload) : StatusView :=
  let tournament := p.bind Payload.tournament
  let url := tournament.bind Tournament.url
  let err := p.bind Payload.error
  let notConfigured := p.bind Payload.configured = some false
  { nameText := jsOr (tournament.bind Tournament.name) "Challonge Tournament"
    stateText :=
      match tournament.bind Tournament.state with
      | some s =>
          if s = "" then "Waiting for tournament details"
          else "State: " ++ ((stateStrings s.toLower).getD s)
      | none => "Waiting for tournament details"
    participantsText :=
      match tournament.bind Tournament.total_participants with
      | some n => toString n
      | none => "—"
    matchesText :=
      match tournament.bind Tournament.total_matches with
      | some n => toString n
      | none => "—"
    updatedText := jsOr (p.bind Payload.fetched_at) "—"
    linkHref := if jsTruthy url then url.getD "" else "#"
    linkHidden := !jsTruthy url
    errorText :=
      if notConfigured then "Challonge integration is not configured."
      else if jsTruthy err then err.getD ""
      else ""
    errorHidden :=
      if notConfigured then false
      else if jsTruthy err then false
      else true }

/-- The page regions owned by the renderer: the status section's
sub-element state plus the element children of the four list regions. -/
structure Root where
  status : StatusView
  current : List Node
  upcoming : List Node
  recent : List Node
  rounds : List Node

/-- `applyPayload(root, payload)` (lines 251–274). -/
def applyPayload (root : Root) (p : Option Payload) : Root :=
  let tournament := p.bind Payload.tournament
  { status := updateStatus p
    current := renderCurrent root.current (tournament.bind Tournament.current_match)
    upcoming := renderMatchList root.upcoming
      ((tournament.bind Tournament.upcoming_matches).getD [])
      "No upcoming matches have been posted."
    recent := renderMatchList root.recent
      ((tournament.bind Tournament.recent_matches).getD [])
      "No matches have been completed yet."
    rounds := renderRounds root.rounds
      ((tournament.bind Tournament.rounds).getD []) }

/-! ### Status Poller cycle (challonge_live.js lines 276–311) -/

/-- The outcome of one fetch attempt against the status endpoint.
`success ok body` means the response body parsed as JSON (`ok` is
`response.ok`, `body` is the parsed value, `none` for a JSON `null`);
`failed` means the request never completed or the body was not parseable
JSON, i.e. the promise chain rejected into the `.catch` handler. -/
inductive FetchResult where
  | success (ok : Bool) (body : Option Payload)
  | failed
deriving DecidableEq

/-- An observable action of the poller's completion handlers: a call into
`applyPayload` with the payload it renders, a `console.error` log, or a
`setTimeout` reschedule with its delay in milliseconds. -/
inductive Event where
  | render (p : Option Payload)
  | log (msg : String)
  | schedule (delayMs : Nat)
deriving DecidableEq

/-- The payload handed to `applyPayload` for a given fetch outcome
(lines 279–293): on a non-ok response the body is defaulted to `{}` and its
`error` field is defaulted (`data.error = data.error || '...'`); on a
rejection the fixed fallback payload is synthesized. -/
def renderedPayload : FetchResult → Option Payload
  | .success true body => body
  | .success false body =>
      let data := body.getD emptyPayload
      some { data with error := some (jsOr data.error "Unable to load tournament data.") }
  | .failed =>
      some { configured := some true,
             error := some "Unable to load tournament data.",
             fetched_at := none,
             tournament := none }

/-- `fetchAndRender(root, scheduleNext)` (lines 276–296) as the trace of
observable actions of one completed cycle: the fulfilled branch renders and
then reschedules; the `.catch` branch logs, renders the fallback payload and
then reschedules. -/
def fetchAndRender : FetchResult → List Event
  | .success ok body =>
      [Event.render (renderedPayload (.success ok body)), Event.schedule 15000]
  | .failed =>
      [Event.log "Challonge live update failed",
       Event.render (renderedPayload .failed),
       Event.schedule 15000]

/-- The concatenated trace of a sequence of completed cycles (each cycle
runs only after the previous one's completion handler scheduled it). -/
def runCycles : List FetchResult → List Event
  | [] => []
  | r :: rest => fetchAndRender r ++ runCycles rest

/-- Recognizer for render events. -/
def Event.isRender : Event → Bool
  | .render _ => true
  | _ => false

/-- Recognizer for schedule events. -/
def Event.isSchedule : Event → Bool
  | .schedule _ => true
  | _ => false

/-! ### The pending-timeout state of the Status Poller (lines 302–308) -/

/-- The scheduling state of the `DOMContentLoaded` closure: the set of
timeout ids currently pending in the browser (as a list), the closure's
`timer` variable (`null` initially; timeout ids are positive, so the JS
`if (timer)` test is a null-check), and the next fresh id the browser will
hand out. -/
structure TimerState where
  pending : List Nat
  timer : Option Nat
  nextId : Nat

/-- The initial scheduling state: `let timer = null`, nothing pending. -/
def initTimerState : TimerState := { pending := [], timer := none, nextId := 0 }

/-- `scheduleNext` (lines 303–308): if a timer handle is stored, clear that
timeout; then set a new timeout and store its handle. -/
def scheduleNext (s : TimerState) : TimerState :=
  let cleared :=
    match s.timer with
    | some t => s.pending.erase t
    | none => s.pending
  { pending := cleared ++ [s.nextId], timer := some s.nextId, nextId := s.nextId + 1 }

/-- Environment steps interleaving with the closure: an invocation of
`scheduleNext`, or the browser firing (and thus retiring) a pending
timeout. -/
inductive TimerOp where
  | schedule
  | fire (t : Nat)

/-- One step of the scheduling state. -/
def timerStep (s : TimerState) : TimerOp → TimerState
  | .schedule => scheduleNext s
  | .fire t => if t ∈ s.pending then { s with pending := s.pending.erase t } else s

/-- Run a sequence of scheduling steps from a state. -/
def runTimerOps (s : TimerState) : List TimerOp → TimerState
  | [] => s
  | op :: rest => runTimerOps (timerStep s op) rest

/-! ### Bracket Change Watcher (src/unnamed/part_000) -/

/-- A `meta.updated_at` value: the data model allows a string or a number
(`null`/`undefined` is represented by `Option` at the use site). -/
inductive UpdateMarker where
  | str (s : String)
  | num (n : Int)
deriving DecidableEq

/-- `String(updatedValue)` (part_000 line 38). -/
def markerToString : UpdateMarker → String
  | .str s => s
  | .num n => toString n

/-- The outcome of one watcher poll against the bracket meta endpoint.
`failed` is the `catch` path (fetch rejected or `response.json()` threw),
`notOk` a response with `!response.ok`, `noMeta` a parsed body that is falsy
or has a falsy `meta`, and `meta u` a body with a `meta` object whose
`updated_at` is `u` (`none` for `null`/`undefined`). -/
inductive BracketResponse where
  | failed
  | notOk
  | noMeta
  | meta (updated : Option UpdateMarker)
deriving DecidableEq

/-- `pollBracket()` (part_000 lines 24–49) acting on the `lastSeenUpdate`
variable (line 22): returns the new `lastSeenUpdate` and whether
`window.location.reload()` was called.  The `try/catch` around the whole
body is modelled by the `failed` constructor and totality of this function;
after a reload the page tears down, so the stored baseline is left
unchanged in that branch. -/
def pollBracket (lastSeenUpdate : Option String) :
    BracketResponse → Option String × Bool
  | .failed => (lastSeenUpdate, false)
  | .notOk => (lastSeenUpdate, false)
  | .noMeta => (lastSeenUpdate, false)
  | .meta none => (lastSeenUpdate, false)
  | .meta (some u) =>
      let normalized := markerToString u
      match lastSeenUpdate with
      | none => (some normalized, false)
      | some s =>
          if s = "" then (some normalized, false)
          else if normalized = s then (some s, false)
          else (some s, true)

/-- The startup environment of the watcher (part_000 lines 2–20): the
config/bracket elements may be missing, the config block may fail to parse,
or it parses with an optional `apiUrl` (empty string is falsy under
`!apiUrl`) and a refresh interval given here as the result of
`parseInt(config.refreshInterval, 10)` (`none` for `NaN`). -/
inductive BracketConfig where
  | missingElements
  | unparseable
  | parsed (apiUrl : Option String) (refreshIntervalMs : Option Int)

/-- The watcher's startup (part_000 lines 2–20 and 51): every guard clause
`return`s before `setInterval(pollBracket, intervalMs)` is reached, so the
result is the `setInterval` registration — the polled URL and interval —
when the watcher starts, and `none` when it does not (no timer scheduled,
no fetch ever performed).  The guards run exactly once, at script load. -/
def watcherInit : BracketConfig → Option (String × Int)
  | .missingElements => none
  | .unparseable => none
  | .parsed apiUrl intervalMs =>
      match apiUrl with
      | none => none
      | some url =>
          if url = "" then none
          else
            match intervalMs with
            | none => none
            | some n => if 0 < n then some (url, n) else none

/-! ### Collecting the rendered text of a DOM tree -/

mutual
/-- All text-node contents of a DOM subtree, in document order. -/
def nodeTexts : Node → List String
  | .text s => [s]
  | .elem _ _ _ children => nodesTexts children

/-- All text-node contents of a forest of DOM nodes. -/
def nodesTexts : List Node → List String
  | [] => []
  | n :: rest => nodeTexts n ++ nodesTexts rest
end

/-- The all-absent match (every payload field missing). -/
def emptyMatch : Match :=
  { id := none, round_label := none, player1_name := none, player2_name := none,
    winner_slot := none, score_text := none, status_text := none }

/-- A sample static scaffold element (a region heading). -/
def sampleNode : Node := .elem "h3" [] [] [.text "Heading"]

/-- A sample page root whose four regions each hold one leading element. -/
def sampleRoot : Root :=
  { status := updateStatus none, current := [sampleNode], upcoming := [sampleNode],
    recent := [sampleNode], rounds := [sampleNode] }

/-! ### Theorems -/

/-- The clearing loop keeps exactly the first element child (and nothing of
an empty region). -/
theorem removeContent_eq_take (c : List Node) : removeContent c = c.take 1 := by
  induction c using List.reverseRecOn with
  | nil => simp [removeContent]
  | append_singleton xs a ih =>
    unfold removeContent
    cases xs with
    | nil => simp
    | cons y ys =>
      have h1 : 1 < (y :: ys ++ [a]).length := by simp
      rw [if_pos h1, List.dropLast_concat, ih]
      simp
/-- Clearing a region that was cleared-and-repopulated from a nonempty
region gives back the cleared region. -/
theorem removeContent_append (c : List Node) (h : c ≠ []) (xs : List Node) :
    removeContent (removeContent c ++ xs) = removeContent c := by
  rw [removeContent_eq_take, removeContent_eq_take]
  cases c with
  | nil => exact absurd rfl h
  | cons a t => simp

/-- Rendering the current-match region twice with the same input equals
rendering it once, for a region with a leading element child. -/
theorem renderCurrent_idem (c : List Node) (m : Option Match) (h : c ≠ []) :
    renderCurrent (renderCurrent c m) m = renderCurrent c m := by
  cases m <;> simp only [renderCurrent] <;>
    rw [removeContent_append c h]

/-- Rendering a match-list region twice with the same input equals rendering
it once, for a region with a leading element child. -/
theorem renderMatchList_idem (c : List Node) (ms : List Match) (txt : String)
    (h : c ≠ []) :
    renderMatchList (renderMatchList c ms txt) ms txt = renderMatchList c ms txt := by
  cases ms <;> simp [renderMatchList, removeContent_append c h]

/-- Rendering the rounds region twice with the same input equals rendering
it once, for a region with a leading element child. -/
theorem renderRounds_idem (c : List Node) (rs : List Round) (h : c ≠ []) :
    renderRounds (renderRounds c rs) rs = renderRounds c rs := by
  cases rs <;> simp [renderRounds, removeContent_append c h]

/-- C1: for every payload and every page root whose four list regions each
start with at least one leading element child, applying the payload twice in
a row yields the same DOM content as applying it once — each render pass
removes every element child after the first and rebuilds the region, so no
duplicate content accumulates. -/
theorem applyPayload_idempotent (root : Root) (p : Option Payload)
    (hc : root.current ≠ []) (hu : root.upcoming ≠ []) (hr : root.recent ≠ [])
    (hd : root.rounds ≠ []) :
    applyPayload (applyPayload root p) p = applyPayload root p := by
  simp only [applyPayload]
  congr 1
  · exact renderCurrent_idem _ _ hc
  · exact renderMatchList_idem _ _ _ hu
  · exact renderMatchList_idem _ _ _ hr
  · exact renderRounds_idem _ _ hd

/-- Witness for C1 at a concrete root and payload. -/
theorem applyPayload_idempotent_witness :
    sampleRoot.current ≠ [] ∧ sampleRoot.upcoming ≠ [] ∧ sampleRoot.recent ≠ [] ∧
      sampleRoot.rounds ≠ [] ∧
      applyPayload (applyPayload sampleRoot none) none = applyPayload sampleRoot none := by
  refine ⟨?_, ?_, ?_, ?_, applyPayload_idempotent sampleRoot none ?_ ?_ ?_ ?_⟩ <;>
    simp [sampleRoot]

/-- C2: over any sequence of completed cycles, the number of render passes
and of reschedules both equal the number of cycles, every reschedule carries
the fixed 15000 ms delay, each single cycle performs exactly one render
pass, and the (unique) reschedule is the last action of the cycle's
completion handler — so the loop never terminates on error and the next
cycle is started only from the completion of the previous one. -/
theorem fetchAndRender_cycle_contract (rs : List FetchResult) (r : FetchResult) :
    (runCycles rs).countP Event.isRender = rs.length ∧
    (runCycles rs).filter Event.isSchedule = List.replicate rs.length (Event.schedule 15000) ∧
    (fetchAndRender r).countP Event.isRender = 1 ∧
    (fetchAndRender r).filter Event.isSchedule = [Event.schedule 15000] ∧
    (fetchAndRender r).getLast? = some (Event.schedule 15000) := by
  have hone : ∀ x : FetchResult,
      (fetchAndRender x).countP Event.isRender = 1 ∧
      (fetchAndRender x).filter Event.isSchedule = [Event.schedule 15000] ∧
      (fetchAndRender x).getLast? = some (Event.schedule 15000) := by
    intro x
    cases x <;>
      simp [fetchAndRender, Event.isRender, Event.isSchedule,
        List.countP_cons, List.countP_nil, List.filter, List.getLast?]
  refine ⟨?_, ?_, (hone r).1, (hone r).2.1, (hone r).2.2⟩
  · induction rs with
    | nil => simp [runCycles]
    | cons x rest ih =>
      simp [runCycles, List.countP_append, ih, (hone x).1]
      omega
  · induction rs with
    | nil => simp [runCycles]
    | cons x rest ih =>
      simp [runCycles, List.filter_append, ih, (hone x).2.1, List.replicate_succ]

/-- C3 counterexample: the claim as stated is false on the code.  Starting
from no seeded baseline, a first poll whose non-null `updated_at` is the
empty string captures it as the baseline without reloading (as the claim
says), but on the next poll — a baseline being held and the stringified
`updated_at` `"b"` being unequal to it — no reload fires: the empty-string
baseline is falsy under `!lastSeenUpdate`, so the watcher silently replaces
the baseline instead of reloading. -/
theorem pollBracket_empty_baseline_cex :
    pollBracket none (.meta (some (.str ""))) = (some "", false) ∧
    pollBracket (some "") (.meta (some (.str "b"))) = (some "b", false) ∧
    markerToString (.str "b") ≠ "" := by
  refine ⟨rfl, ?_, by decide⟩
  simp [pollBracket, markerToString]

/-- C3 (amended): with no seeded baseline, the first poll yielding a
non-null `updated_at` captures its stringification as the baseline and
performs no reload; on every subsequent poll while a *non-empty-string*
baseline is held, the stringified `updated_at` is compared to the stored
baseline, no reload fires when they are equal, and a reload is triggered
when they are unequal.  (An empty-string baseline leaves the watcher
unarmed: the next non-null `updated_at` replaces it without reloading.) -/
theorem pollBracket_baseline_transitions (b : String) (u : UpdateMarker)
    (hb : b ≠ "") :
    pollBracket none (.meta (some u)) = (some (markerToString u), false) ∧
    (markerToString u = b → pollBracket (some b) (.meta (some u)) = (some b, false)) ∧
    (markerToString u ≠ b → pollBracket (some b) (.meta (some u)) = (some b, true)) := by
  refine ⟨rfl, ?_, ?_⟩ <;> intro h <;> simp [pollBracket, hb, h]

/-- Witness for C3's amended statement: baseline `"a"`, incoming `"b"`,
reload fires. -/
theorem pollBracket_baseline_transitions_witness :
    ("a" : String) ≠ "" ∧ markerToString (.str "b") ≠ "a" ∧
      pollBracket (some "a") (.meta (some (.str "b"))) = (some "a", true) :=
  ⟨by decide, by decide,
    (pollBracket_baseline_transitions "a" (.str "b") (by decide)).2.2 (by decide)⟩

/-- C4: a poll whose response failed at the network/parse level, is non-OK,
has no (truthy) `meta` object, or has a null/undefined `meta.updated_at`, is
a no-op — the stored baseline is unchanged and no reload is triggered.  The
poll handler's whole body sits in a `try`/`catch` whose `catch` only logs,
which the embedding reflects by `pollBracket` being total, with
`BracketResponse.failed` as the caught-exception path: no exception
propagates out of the handler. -/
theorem pollBracket_noop (lastSeen : Option String) (r : BracketResponse)
    (h : r = .failed ∨ r = .notOk ∨ r = .noMeta ∨ r = .meta none) :
    pollBracket lastSeen r = (lastSeen, false) := by
  rcases h with h | h | h | h <;> subst h <;> rfl

/-- Witness for C4 at a concrete baseline and response. -/
theorem pollBracket_noop_witness :
    pollBracket (some "a") BracketResponse.notOk = (some "a", false) :=
  pollBracket_noop (some "a") BracketResponse.notOk (Or.inr (Or.inl rfl))

/-- C9: the Bracket Change Watcher does not start — no `setInterval`
registration, hence no timer and no fetch — when the configuration elements
are missing, the configuration block is unparseable, `apiUrl` is missing, or
the parsed refresh interval is `NaN` or not positive.  The guards are
evaluated once, at script startup. -/
theorem watcherInit_guard (a : Option String) (i : Option Int) :
    watcherInit BracketConfig.missingElements = none ∧
    watcherInit BracketConfig.unparseable = none ∧
    watcherInit (BracketConfig.parsed none i) = none ∧
    watcherInit (BracketConfig.parsed a none) = none ∧
    (∀ n : Int, n ≤ 0 → watcherInit (BracketConfig.parsed a (some n)) = none) := by
  refine ⟨rfl, rfl, rfl, ?_, ?_⟩
  · cases a with
    | none => rfl
    | some url => simp [watcherInit]
  · intro n hn
    cases a with
    | none => rfl
    | some url =>
      simp only [watcherInit]
      split
      · rfl
      · simp [not_lt.mpr hn]

/-- Witness for C9 at a concrete configuration with a non-positive
interval. -/
theorem watcherInit_guard_witness :
    (0 : Int) ≤ 0 ∧ watcherInit (BracketConfig.parsed (some "/api") (some 0)) = none :=
  ⟨le_refl 0, (watcherInit_guard (some "/api") none).2.2.2.2 0 (le_refl 0)⟩

/-- The reachable scheduling states keep at most the stored timer pending:
the pending list is empty or the singleton of the stored handle. -/
theorem timerState_pending_inv (ops : List TimerOp) :
    (runTimerOps initTimerState ops).pending = [] ∨
      ∃ t, (runTimerOps initTimerState ops).pending = [t] ∧
        (runTimerOps initTimerState ops).timer = some t := by
  suffices h : ∀ (s : TimerState),
      (s.pending = [] ∨ ∃ t, s.pending = [t] ∧ s.timer = some t) →
      ∀ l : List TimerOp, ((runTimerOps s l).pending = [] ∨
        ∃ t, (runTimerOps s l).pending = [t] ∧ (runTimerOps s l).timer = some t) from
    h initTimerState (Or.inl rfl) ops
  intro s hs l
  induction l generalizing s with
  | nil => exact hs
  | cons op rest ih =>
    apply ih
    cases op with
    | schedule =>
      rcases hs with hp | ⟨t, hp, ht⟩
      · refine Or.inr ⟨s.nextId, ?_, rfl⟩
        cases h : s.timer <;> simp [timerStep, scheduleNext, hp, h]
      · refine Or.inr ⟨s.nextId, ?_, rfl⟩
        simp [timerStep, scheduleNext, hp, ht]
    | fire t' =>
      rcases hs with hp | ⟨t, hp, ht⟩
      · left; simp [timerStep, hp]
      · by_cases hmem : t' ∈ s.pending
        · left; rw [hp] at hmem; simp at hmem; subst hmem
          simp [timerStep, hp]
        · rw [hp] at hmem; simp at hmem
          right; exact ⟨t, by simp [timerStep, hp, hmem], by simp [timerStep, hp, hmem, ht]⟩

/-- C10: from the initial state (`timer = null`, nothing pending), after any
interleaving of `scheduleNext` invocations and timeout firings at most one
status-poll timeout is pending, and a further `scheduleNext` invocation
clears whatever was stored and leaves exactly the freshly set timeout
pending — only the most recently scheduled cycle remains. -/
theorem scheduleNext_single_pending (ops : List TimerOp) :
    (runTimerOps initTimerState ops).pending.length ≤ 1 ∧
      (timerStep (runTimerOps initTimerState ops) TimerOp.schedule).pending =
        [(runTimerOps initTimerState ops).nextId] := by
  obtain hp | ⟨t, hp, ht⟩ := timerState_pending_inv ops
  · constructor
    · simp [hp]
    · cases h : (runTimerOps initTimerState ops).timer <;>
        simp [timerStep, scheduleNext, hp, h]
  · constructor
    · simp [hp]
    · simp [timerStep, scheduleNext, hp, ht]

/-- C5: on a response that parses as JSON but carries a non-success HTTP
status, the cycle renders the parsed body as the payload — with its `error`
field preserved when a (truthy) one is present — and synthesizes the generic
"Unable to load tournament data." error message into the payload before
rendering when the body lacks an `error` field; the cycle then reschedules
as usual. -/
theorem fetchAndRender_httpError (d : Payload) :
    (d.error = none →
      fetchAndRender (.success false (some d)) =
        [Event.render (some { d with error := some "Unable to load tournament data." }),
         Event.schedule 15000]) ∧
    (∀ e : String, d.error = some e → e ≠ "" →
      fetchAndRender (.success false (some d)) =
        [Event.render (some d), Event.schedule 15000]) := by
  constructor
  · intro h
    simp [fetchAndRender, renderedPayload, jsOr, h]
  · intro e he hne
    simp only [fetchAndRender, renderedPayload, Option.getD_some, he, jsOr,
      if_neg hne]
    cases d
    simp only [Payload.error] at he
    subst he
    rfl

/-- Witness for C5 at the body `{}` (no error field). -/
theorem fetchAndRender_httpError_witness :
    emptyPayload.error = none ∧
      fetchAndRender (.success false (some emptyPayload)) =
        [Event.render (some { emptyPayload with
           error := some "Unable to load tournament data." }),
         Event.schedule 15000] :=
  ⟨rfl, (fetchAndRender_httpError emptyPayload).1 rfl⟩

/-- C6 counterexample: on a network-level failure the code does synthesize a
fixed payload, but its error string is `"Unable to load tournament data."`
(capital U, trailing period), not the claim's literal
`"unable to load tournament data"`, so the payload the claim names is not
the one rendered. -/
theorem fetchFailure_message_cex :
    renderedPayload FetchResult.failed =
      some { configured := some true, error := some "Unable to load tournament data.",
             fetched_at := none, tournament := none } ∧
    renderedPayload FetchResult.failed ≠
      some { configured := some true, error := some "unable to load tournament data",
             fetched_at := none, tournament := none } := by
  exact ⟨rfl, by decide⟩

/-- C6 (amended): on a network-level failure of a status poll (request never
completed, or body not parseable as JSON) the poller logs the failure and
renders the synthesized payload `{ configured: true, error: "Unable to load
tournament data.", tournament: null }` — one explicit render pass, never a
silent no-op — and then reschedules. -/
theorem fetchFailure_renders_error_state :
    fetchAndRender FetchResult.failed =
      [Event.log "Challonge live update failed",
       Event.render (some { configured := some true,
                            error := some "Unable to load tournament data.",
                            fetched_at := none, tournament := none }),
       Event.schedule 15000] := rfl

/-- C7: for a payload with `configured = false` the error banner shows the
fixed unconfigured message even when `error` is also set; the banner is
hidden exactly when `configured` is not `false` and no (truthy) error string
is present; and otherwise — `configured` not `false` and a non-empty error
string present — the literal error text is shown. -/
theorem updateStatus_error_banner (p : Option Payload) :
    (p.bind Payload.configured = some false →
      (updateStatus p).errorText = "Challonge integration is not configured." ∧
        (updateStatus p).errorHidden = false) ∧
    ((updateStatus p).errorHidden = true ↔
      (p.bind Payload.configured ≠ some false ∧
        jsTruthy (p.bind Payload.error) = false)) ∧
    (∀ e : String, p.bind Payload.configured ≠ some false →
      p.bind Payload.error = some e → e ≠ "" →
      (updateStatus p).errorText = e ∧ (updateStatus p).errorHidden = false) := by
  refine ⟨?_, ?_, ?_⟩
  · intro h
    simp [updateStatus, h]
  · by_cases hc : p.bind Payload.configured = some false
    · simp [updateStatus, hc]
    · by_cases he : jsTruthy (p.bind Payload.error) <;> simp [updateStatus, hc, he]
  · intro e hc he hne
    simp [updateStatus, hc, he, jsTruthy, hne]

/-- A payload that is unconfigured and also carries an error string. -/
def unconfiguredPayload : Payload :=
  { configured := some false, error := some "boom", fetched_at := none,
    tournament := none }

/-- Witness for C7: unconfigured takes precedence over a same-cycle error
string. -/
theorem updateStatus_error_banner_witness :
    (some unconfiguredPayload).bind Payload.configured = some false ∧
      (updateStatus (some unconfiguredPayload)).errorText =
        "Challonge integration is not configured." ∧
      (updateStatus (some unconfiguredPayload)).errorHidden = false :=
  ⟨rfl, (updateStatus_error_banner (some unconfiguredPayload)).1 rfl⟩

/-- C8 counterexample: the claim that every absent match field renders as an
explicit placeholder, never as an empty artifact, is false — the all-absent
match produces a row whose `match-state` span holds the empty string
(`status_text || ''`), an empty text artifact in the DOM. -/
theorem createMatchRow_empty_artifact_cex :
    "" ∈ nodeTexts (createMatchRow emptyMatch) ∧
      ¬ ∀ m : Match, "" ∉ nodeTexts (createMatchRow m) := by
  have h : "" ∈ nodeTexts (createMatchRow emptyMatch) := by
    simp [createMatchRow, emptyMatch, matchRoundDiv, matchPlayersDiv,
      matchMetaDiv, playerSpan, vsSpan, scoreSpanList, stateSpan, matchDataset,
      jsOr, nodeTexts, nodesTexts]
  exact ⟨h, fun hall => hall emptyMatch h⟩

/-- C8 (amended): an absent `round_label` renders the placeholder `Round`
and absent player names render the placeholder `TBD`; an absent `score_text`
omits the score element and an absent `id` omits the match-id data attribute
entirely (rather than rendering placeholders); an absent `status_text`
renders the status element with empty text.  No absent field ever renders as
the text `undefined`, but not every absent field gets an explicit
placeholder. -/
theorem createMatchRow_absent_fields (m : Match) :
    (m.round_label = none →
      matchRoundDiv m = Node.elem "div" ["match-round"] [] [Node.text "Round"]) ∧
    (m.player1_name = none →
      playerSpan m.player1_name "player1" m.winner_slot =
        Node.elem "span"
          ("match-player" :: if m.winner_slot = some "player1" then ["winner"] else [])
          [] [Node.text "TBD"]) ∧
    (m.player2_name = none →
      playerSpan m.player2_name "player2" m.winner_slot =
        Node.elem "span"
          ("match-player" :: if m.winner_slot = some "player2" then ["winner"] else [])
          [] [Node.text "TBD"]) ∧
    (m.score_text = none →
      matchMetaDiv m = Node.elem "div" ["match-meta"] [] [stateSpan m]) ∧
    (m.status_text = none →
      stateSpan m = Node.elem "span" ["match-state"] [] [Node.text ""]) ∧
    (m.id = none →
      createMatchRow m = Node.elem "li" ["match-row"] []
        [matchRoundDiv m, matchPlayersDiv m, matchMetaDiv m]) := by
  refine ⟨?_, ?_, ?_, ?_, ?_, ?_⟩ <;> intro h <;>
    simp [matchRoundDiv, playerSpan, matchMetaDiv, scoreSpanList, stateSpan,
      matchDataset, createMatchRow, jsOr, h]

/-- Witness for C8's amended statement at the all-absent match. -/
theorem createMatchRow_absent_fields_witness :
    emptyMatch.round_label = none ∧
      matchRoundDiv emptyMatch = Node.elem "div" ["match-round"] [] [Node.text "Round"] ∧
      stateSpan emptyMatch = Node.elem "span" ["match-state"] [] [Node.text ""] :=
  ⟨rfl, (createMatchRow_absent_fields emptyMatch).1 rfl,
    (createMatchRow_absent_fields emptyMatch).2.2.2.2.1 rfl⟩

end ChallongeLive
